import Mathlib

/-!
Verification development for the labor-news collection pipeline
(`collect_news.py`).  The Python source is shallowly embedded: strings are
Lean `String`s manipulated through their underlying `List Char`
(so that everything reduces structurally), `datetime` values are records of
numeric fields compared lexicographically (as CPython compares them), and
the filesystem / network boundaries (directory scans, feed fetches, the
summarizer) appear as explicit parameters.
-/

namespace CollectNews

/-! ## Basic string machinery

Python string operations are re-implemented on `List Char` with structural
recursion, mirroring CPython semantics on the inputs the program produces.
`pyStrip`/`Char.isWhitespace` cover the ASCII whitespace actually emitted by
the feeds; `pyLower` lowers ASCII letters (no cased characters beyond ASCII
occur in the keyword table or category labels).
-/

/-- Python `str.strip()`: drop whitespace from both ends. -/
def pyStrip (s : String) : String :=
  let l := s.data.dropWhile Char.isWhitespace
  ⟨(l.reverse.dropWhile Char.isWhitespace).reverse⟩

/-- Python `str.lower()` (ASCII range). -/
def pyLower (s : String) : String := ⟨s.data.map Char.toLower⟩

/-- Contiguous-sublist test on lists. -/
def listInfixTest (n : List Char) : List Char → Bool
  | [] => n.isEmpty
  | c :: cs => n.isPrefixOf (c :: cs) || listInfixTest n cs

/-- Python `needle in hay` (substring containment). -/
def pyIn (needle hay : String) : Bool := listInfixTest needle.data hay.data

/-- Python `s.startswith(p)`. -/
def pyStarts (s p : String) : Bool := p.data.isPrefixOf s.data

/-- Python `s[n:]` (character based). -/
def pyDrop (s : String) (n : Nat) : String := ⟨s.data.drop n⟩

/-- Python `s[:n]` (character based). -/
def pyTake (s : String) (n : Nat) : String := ⟨s.data.take n⟩

/-- Python `len(s)` (character count). -/
def pyLen (s : String) : Nat := s.data.length

/-- Python `s.lstrip(chars)`: drop leading characters belonging to `chars`. -/
def pyLstrip (s : String) (chars : List Char) : String :=
  ⟨s.data.dropWhile (fun c => chars.contains c)⟩

/-- Split on a single character (Python `s.split(c)` for a 1-char separator). -/
def splitChar (c : Char) : List Char → List (List Char)
  | [] => [[]]
  | x :: xs =>
    match splitChar c xs with
    | r :: rs => if x = c then [] :: r :: rs else (x :: r) :: rs
    | [] => [[]]

/-- Python `s.split(c)` for a one-character separator. -/
def pySplitChar (c : Char) (s : String) : List String :=
  (splitChar c s.data).map String.mk

/-- Fuelled scanner for multi-character separators; the fuel is always
instantiated to more than the length of the scanned list, so it never runs
out.  Splits at non-overlapping occurrences, left to right, as Python
`str.split(sep)` does for a non-empty separator. -/
def splitSeqFuel (sep : List Char) : Nat → List Char → List (List Char)
  | 0, l => [l]
  | fuel + 1, l =>
    if sep ≠ [] ∧ sep.isPrefixOf l then
      [] :: splitSeqFuel sep fuel (l.drop sep.length)
    else
      match l with
      | [] => [[]]
      | x :: xs =>
        match splitSeqFuel sep fuel xs with
        | r :: rs => (x :: r) :: rs
        | [] => [[]]

/-- Python `s.split(sep)` for a non-empty separator string. -/
def pySplitOn (sep : String) (s : String) : List String :=
  (splitSeqFuel sep.data (s.data.length + 1) s.data).map String.mk

/-- Concatenate with a separator (Python `sep.join(parts)`). -/
def strIntercalate (sep : String) (l : List String) : String :=
  ⟨(List.intersperse sep.data (l.map String.data)).flatten⟩

/-- Python `"".join(parts)`. -/
def strJoin (l : List String) : String := ⟨(l.map String.data).flatten⟩

/-- Python `"\n".join(parts)` — used by both report generators. -/
def joinLines (l : List String) : String := strIntercalate "\n" l

/-- Python `s.replace(old, new)` (all non-overlapping occurrences, for a
non-empty `old`), realised as split-then-join. -/
def pyReplace (s old new : String) : String :=
  strIntercalate new (pySplitOn old s)

/-- Decimal rendering of a natural number, as Python `str(n)` /
f-string interpolation of an `int`.  The fuel always exceeds the number of
digits. -/
def natDigsFuel (dig : Nat → Char) : Nat → Nat → List Char
  | 0, _ => []
  | fuel + 1, n => if n = 0 then [] else natDigsFuel dig fuel (n / 10) ++ [dig (n % 10)]

/-- One decimal digit character. -/
def digChar (n : Nat) : Char :=
  match n % 10 with
  | 0 => '0' | 1 => '1' | 2 => '2' | 3 => '3' | 4 => '4'
  | 5 => '5' | 6 => '6' | 7 => '7' | 8 => '8' | _ => '9'

/-- Python `str(n)` for a natural number. -/
def natRepr (n : Nat) : String :=
  if n = 0 then "0" else ⟨natDigsFuel digChar (n + 1) n⟩

/-- Count occurrences of one character in a string. -/
def countChar (c : Char) (s : String) : Nat := s.data.count c

/-! ## `escape_html` (collect_news.py lines 1373-1380)

The Python body is a chain
`.replace("&","&amp;").replace("<","&lt;").replace(">","&gt;").replace('"',"&quot;")`.
Because the replacement texts never contain a later-replaced character and
every pattern is a single character, the chain acts independently on each
character; the embedding expands character by character. -/

/-- Expansion of a single character under `escape_html`'s replacement chain. -/
def escChar (c : Char) : List Char :=
  if c = '&' then "&amp;".data
  else if c = '<' then "&lt;".data
  else if c = '>' then "&gt;".data
  else if c = '"' then "&quot;".data
  else [c]

/-- `escape_html` from the source. -/
def escape_html (s : String) : String := ⟨(s.data.map escChar).flatten⟩

/-! ## Date-time values

`datetime` values resolved by the collector carry second granularity (the
feed parser exposes 6-tuples; `replace(hour=0, minute=0, second=0,
microsecond=0)` zeroes the sub-day part).  CPython compares `datetime`s
lexicographically on their fields, embedded here through `key`. -/

structure DateTime where
  year : Nat
  month : Nat
  day : Nat
  hour : Nat
  minute : Nat
  second : Nat
deriving DecidableEq, Repr

/-- Comparison key: CPython compares `datetime`s field by field. -/
def DateTime.fields (t : DateTime) : List Nat :=
  [t.year, t.month, t.day, t.hour, t.minute, t.second]

/-- Lexicographic `≤` test on lists over a linear order, as Python compares
sequences of comparable values. -/
def lexLe {α : Type _} [LinearOrder α] : List α → List α → Bool
  | [], _ => true
  | _ :: _, [] => false
  | a :: as, b :: bs => if a < b then true else if b < a then false else lexLe as bs

/-- Strict lexicographic `<` test. -/
def lexLt {α : Type _} [LinearOrder α] : List α → List α → Bool
  | [], [] => false
  | [], _ :: _ => true
  | _ :: _, [] => false
  | a :: as, b :: bs => if a < b then true else if b < a then false else lexLt as bs

/-- Python `datetime` `<=`. -/
def dtLe (a b : DateTime) : Bool := lexLe a.fields b.fields

/-- Python string `<=` (code-point lexicographic, as CPython). -/
def strLe (a b : String) : Bool := lexLe a.data b.data

/-- Zero-padded two-digit field, as `strftime` `%H`, `%M`, `%m`, `%d`. -/
def pad2 (n : Nat) : String := ⟨[digChar (n / 10), digChar n]⟩

/-- Zero-padded four-digit field, as `strftime` `%Y` for the years in use. -/
def pad4 (n : Nat) : String :=
  ⟨[digChar (n / 1000), digChar (n / 100), digChar (n / 10), digChar n]⟩

/-- `strftime("%Y-%m-%d")`. -/
def fmtDate (t : DateTime) : String := pad4 t.year ++ "-" ++ pad2 t.month ++ "-" ++ pad2 t.day

/-- `strftime("%H:%M")`. -/
def fmtHM (t : DateTime) : String := pad2 t.hour ++ ":" ++ pad2 t.minute

/-- `strftime("%m/%d")`. -/
def fmtMD (t : DateTime) : String := pad2 t.month ++ "/" ++ pad2 t.day

/-- `strftime("%Y-%m-%d %H:%M")` — the "generated at" stamp. -/
def fmtMin (t : DateTime) : String := fmtDate t ++ " " ++ fmtHM t

/-! ## The article record (`NewsItem`, lines 30-36) -/

structure NewsItem where
  title : String
  link : String
  published : DateTime
  summary : String
  source : String
deriving DecidableEq, Repr

/-! ## Keyword filter (lines 52-62, 1186-1189) -/

/-- `LABOR_KEYWORDS` from the source. -/
def LABOR_KEYWORDS : List String :=
  ["労働", "雇用", "賃金", "給与", "残業", "働き方", "労務",
   "人事", "採用", "退職", "解雇", "休暇", "有給", "育児",
   "介護", "ハラスメント", "パワハラ", "セクハラ", "労災",
   "社会保険", "厚生年金", "健康保険", "雇用保険", "労働基準",
   "最低賃金", "同一労働", "テレワーク", "在宅勤務", "副業",
   "兼業", "定年", "再雇用", "派遣", "契約社員", "正社員",
   "非正規", "就業規則", "労働組合", "団体交渉", "ストライキ",
   "36協定", "安全衛生", "メンタルヘルス", "過労", "長時間労働"]

/-- `is_labor_related` (lines 1186-1189). -/
def is_labor_related (text : String) : Bool :=
  LABOR_KEYWORDS.any (fun keyword => pyIn keyword (pyLower text))

/-- The retention test applied by `fetch_feed` (line 1209):
`is_labor_related(title + summary)`. -/
def fetch_keeps (title summary : String) : Bool :=
  is_labor_related (title ++ summary)

/-! ## Window selection (lines 1291-1300, 2253-2255) -/

/-- `published.replace(hour=0, minute=0, second=0, microsecond=0)`. -/
def truncateDay (t : DateTime) : DateTime :=
  { t with hour := 0, minute := 0, second := 0 }

/-- Whether a Gregorian year is a leap year (CPython `calendar` rule). -/
def isLeap (y : Nat) : Bool := y % 4 == 0 && (y % 100 != 0 || y % 400 == 0)

/-- Days in a month of the proleptic Gregorian calendar. -/
def daysInMonth (y m : Nat) : Nat :=
  if m = 2 then (if isLeap y then 29 else 28)
  else if m = 4 ∨ m = 6 ∨ m = 9 ∨ m = 11 then 30
  else 31

/-- The calendar day before `t` (time fields untouched); together with
`subDays` this models CPython `datetime - timedelta(days=n)` on valid dates. -/
def prevDay (t : DateTime) : DateTime :=
  if t.day > 1 then { t with day := t.day - 1 }
  else if t.month > 1 then { t with month := t.month - 1, day := daysInMonth t.year (t.month - 1) }
  else { t with year := t.year - 1, month := 12, day := 31 }

/-- `t - timedelta(days=n)`. -/
def subDays (t : DateTime) : Nat → DateTime
  | 0 => t
  | n + 1 => subDays (prevDay t) n

/-- The window computed by `main` (lines 2253-2255):
`end = now.replace(hour=0, minute=0, second=0, microsecond=0)`,
`start = end - timedelta(days=days - 1)`. -/
def computeWindow (days : Nat) (now : DateTime) : DateTime × DateTime :=
  let endDate := truncateDay now
  (subDays endDate (days - 1), endDate)

/-- `filter_by_date_range` (lines 1291-1300). -/
def filter_by_date_range (items : List NewsItem) (startDate endDate : DateTime) :
    List NewsItem :=
  items.filter (fun item =>
    let itemDate := truncateDay item.published
    dtLe startDate itemDate && dtLe itemDate endDate)

/-! ## Sorting

Python's `sorted` is a stable sort; `reverse=True` flips the comparison
while preserving the relative order of equal elements.  A stable insertion
sort with an explicit boolean comparator models both. -/

/-- Insert `x` in front of the first element `y` with `le x y = true`. -/
def insertLe {α : Type _} (le : α → α → Bool) (x : α) : List α → List α
  | [] => [x]
  | y :: ys => if le x y then x :: y :: ys else y :: insertLe le x ys

/-- Stable insertion sort with comparator `le` (models Python `sorted`). -/
def sortLe {α : Type _} (le : α → α → Bool) : List α → List α
  | [] => []
  | x :: xs => insertLe le x (sortLe le xs)

/-- First-occurrence deduplication: the iteration order of a Python
`dict` / `defaultdict` keyed by successive insertions. -/
def firstOcc : List String → List String
  | [] => []
  | x :: xs => x :: (firstOcc xs).filter (fun y => y ≠ x)

/-! ## Grouping (lines 1303-1309) and the Markdown renderer (1312-1360) -/

/-- The `%Y-%m-%d` key used by `group_by_date`. -/
def dateKey (item : NewsItem) : String := fmtDate item.published

/-- The bucket `group_by_date(items)[k]`: items whose key is `k`, in input
order (a `defaultdict(list)` appends in iteration order). -/
def group_by_date (items : List NewsItem) (k : String) : List NewsItem :=
  items.filter (fun item => dateKey item = k)

/-- Day keys of both reports: `sorted(by_date.keys(), reverse=True)`
(lines 1334, 1622, 1636). -/
def sortedDayKeys (items : List NewsItem) : List String :=
  sortLe (fun a b => strLe b a) (firstOcc (items.map dateKey))

/-- Source keys of one day's bucket: `sorted(by_source.items())`
(line 1344; the tuples have distinct first components, so this is an
ascending sort on the source name). -/
def sortedSourceKeys (dateItems : List NewsItem) : List String :=
  sortLe strLe (firstOcc (dateItems.map (fun it => it.source)))

/-- `sorted(l, key=lambda x: x.published, reverse=True)` (lines 1348, 1652). -/
def sortPublishedDesc (l : List NewsItem) : List NewsItem :=
  sortLe (fun a b => dtLe b.published a.published) l

/-- The two-level grouped view rendered by `generate_markdown`: days
descending, sources ascending inside a day, articles by `published`
descending inside a source. -/
def markdownGroups (items : List NewsItem) :
    List (String × List (String × List NewsItem)) :=
  (sortedDayKeys items).map (fun dk =>
    let dateItems := group_by_date items dk
    (dk, (sortedSourceKeys dateItems).map (fun src =>
      (src, sortPublishedDesc (dateItems.filter (fun it => it.source = src))))))

/-- The bullet (and optional quoted summary) lines of one article in the
Markdown report (lines 1348-1354). -/
def mdItemLines (item : NewsItem) : List String :=
  let timeStr := fmtHM item.published
  ("- [" ++ item.title ++ "](" ++ item.link ++ ") *(" ++ timeStr ++ ")*") ::
  (if item.summary ≠ "" then
    let shortSummary :=
      if pyLen item.summary > 100 then pyTake item.summary 100 ++ "..." else item.summary
    ["  > " ++ shortSummary]
  else [])

/-- One source block of the Markdown report (lines 1344-1355). -/
def mdSourceLines (src : String) (arts : List NewsItem) : List String :=
  ["### " ++ src, ""] ++ arts.flatMap mdItemLines ++ [""]

/-- One day block of the Markdown report (lines 1334-1358). -/
def mdDayLines (dk : String) (srcGroups : List (String × List NewsItem))
    (dayCount : Nat) : List String :=
  ("## 📅 " ++ dk ++ "（" ++ natRepr dayCount ++ "件）") :: "" ::
  srcGroups.flatMap (fun sg => mdSourceLines sg.1 sg.2) ++ ["---", ""]

/-- The line list accumulated by `generate_markdown` (lines 1319-1358). -/
def mdLines (items : List NewsItem) (startDate endDate now : DateTime) : List String :=
  ["# 労務関連ニュース",
   "## 期間: " ++ fmtDate startDate ++ " 〜 " ++ fmtDate endDate,
   "",
   "*収集日時: " ++ fmtMin now ++ "*",
   "",
   "ニュース件数: **" ++ natRepr items.length ++ "件**",
   "",
   "---",
   ""] ++
  (markdownGroups items).flatMap (fun g =>
    mdDayLines g.1 g.2 (group_by_date items g.1).length)

/-- `generate_markdown` (lines 1312-1360); `datetime.now()` (line 1323) is
passed in as `now`. -/
def generate_markdown (items : List NewsItem) (startDate endDate now : DateTime) : String :=
  joinLines (mdLines items startDate endDate now)

/-! ## HTML renderer: source badges, weekday, card/tab fragments -/

/-- `get_source_icon_class` (lines 1383-1397). -/
def get_source_icon_class (source : String) : String :=
  if pyIn "労働新聞" source then "rodo"
  else if pyIn "労務ドットコム" source || pyIn "roumu" (pyLower source) then "roumu"
  else if pyIn "人事部" source then "jinjibu"
  else if pyIn "SATO" source then "sato"
  else if pyIn "弁護士ドットコム" source then "bengo"
  else if pyIn "PSR" source then "psr"
  else "default"

/-- `get_source_emoji` (lines 1400-1414). -/
def get_source_emoji (source : String) : String :=
  if pyIn "労働新聞" source then "📰"
  else if pyIn "労務ドットコム" source || pyIn "roumu" (pyLower source) then "💼"
  else if pyIn "人事部" source then "👥"
  else if pyIn "SATO" source then "🏢"
  else if pyIn "弁護士ドットコム" source then "⚖️"
  else if pyIn "PSR" source then "📋"
  else "📄"

/-- The `data-filter` / `data-source` identifier (lines 1610, 1660):
`icon_class if icon_class != "default" else source.lower().replace(" ", "-")`.
Note that this value is interpolated into the HTML without `escape_html`. -/
def filterId (source : String) : String :=
  let iconClass := get_source_icon_class source
  if iconClass ≠ "default" then iconClass else pyReplace (pyLower source) " " "-"

/-- The weekday names of `get_weekday_jp` (line 1419), indexed by
CPython `date.weekday()` (Monday = 0). -/
def weekdaysJp : List String := ["月", "火", "水", "木", "金", "土", "日"]

/-- Numeric value of a decimal digit character. -/
def digitVal (c : Char) : Nat := c.toNat - 48

/-- Parse a `YYYY-MM-DD` string (the shape `strptime(.., "%Y-%m-%d")`
accepts for the keys this program produces). -/
def parseYmd (s : String) : Nat × Nat × Nat :=
  match s.data with
  | [y1, y2, y3, y4, _, m1, m2, _, d1, d2] =>
    (digitVal y1 * 1000 + digitVal y2 * 100 + digitVal y3 * 10 + digitVal y4,
     digitVal m1 * 10 + digitVal m2,
     digitVal d1 * 10 + digitVal d2)
  | _ => (1, 1, 1)

/-- Days before the first of month `m` in year `y`. -/
def daysBeforeMonth (y m : Nat) : Nat :=
  let base := [0, 31, 59, 90, 120, 151, 181, 212, 243, 273, 304, 334].getD (m - 1) 0
  if m > 2 ∧ isLeap y then base + 1 else base

/-- Proleptic-Gregorian ordinal (`date.toordinal()`; day 1 = 0001-01-01,
a Monday). -/
def toOrdinal (y m d : Nat) : Nat :=
  365 * (y - 1) + (y - 1) / 4 - (y - 1) / 100 + (y - 1) / 400 + daysBeforeMonth y m + d

/-- `get_weekday_jp` (lines 1417-1421). -/
def get_weekday_jp (dateStr : String) : String :=
  match parseYmd dateStr with
  | (y, m, d) => weekdaysJp.getD ((toOrdinal y m d - 1) % 7) ""

/-- The lines appended for one news card (lines 1652-1687 of
`generate_html`; the whole content is later `"\n".join`-ed). -/
def cardSummaryEscaped (item : NewsItem) : String :=
  if item.summary ≠ "" then escape_html item.summary else ""

/-- `short_summary` (lines 1662-1666): the 120-character truncation applied
AFTER escaping. -/
def cardShortSummary (item : NewsItem) : String :=
  if pyLen (cardSummaryEscaped item) > 120 then pyTake (cardSummaryEscaped item) 120 ++ "..."
  else cardSummaryEscaped item

def newsCardParts (item : NewsItem) : List String :=
  let timeStr := fmtHM item.published
  let dateDisplay := fmtMD item.published
  let titleEscaped := escape_html item.title
  let linkEscaped := escape_html item.link
  let iconClass := get_source_icon_class item.source
  let emoji := get_source_emoji item.source
  let fid := filterId item.source
  let shortSummary := cardShortSummary item
  ["<article class=\"news-card\" data-source=\"" ++ fid ++ "\">",
   "<div class=\"news-card-header\">",
   "<div class=\"news-card-source\">",
   "<span class=\"news-card-source-icon " ++ iconClass ++ "\">" ++ emoji ++ "</span>",
   escape_html item.source,
   "</div>",
   "<span class=\"news-card-date\">🕐 " ++ timeStr ++ "</span>",
   "</div>",
   "<div class=\"news-card-body\">",
   "<a href=\"" ++ linkEscaped ++ "\" target=\"_blank\" rel=\"noopener\">",
   "<h3 class=\"news-card-title\">" ++ titleEscaped ++ "</h3>"] ++
  (if shortSummary ≠ "" then
    ["<p class=\"news-card-summary\">" ++ shortSummary ++ "</p>"] else []) ++
  ["<div class=\"news-card-footer\">",
   "<span class=\"news-card-time\">" ++ dateDisplay ++ " " ++ timeStr ++ "</span>",
   "<span class=\"news-card-arrow\">→</span>",
   "</div>",
   "</a>",
   "</div>",
   "</article>"]

/-- One news card as a string fragment (its parts joined as in the final
document). -/
def renderNewsCard (item : NewsItem) : String := joinLines (newsCardParts item)

/-- The card sequence of one day section: `sorted(date_items,
key=lambda x: x.published, reverse=True)` (line 1652) — no grouping by
source. -/
def dayItemsSorted (items : List NewsItem) (dk : String) : List NewsItem :=
  sortPublishedDesc (group_by_date items dk)

/-- One day section of the HTML report (lines 1640-1690). -/
def dateSectionParts (items : List NewsItem) (dk : String) : List String :=
  ["<section class=\"date-section\" id=\"date-" ++ dk ++ "\">",
   "<div class=\"date-section-header\">",
   "<div class=\"date-section-icon\">📅</div>",
   "<div class=\"date-section-info\">",
   "<div class=\"date-section-date\">" ++ dk ++ "</div>",
   "<div class=\"date-section-weekday\">" ++ get_weekday_jp dk ++ "曜日</div>",
   "</div>",
   "<div class=\"date-section-count\">" ++ natRepr (group_by_date items dk).length ++ "件</div>",
   "</div>",
   "<div class=\"news-grid\">"] ++
  (dayItemsSorted items dk).flatMap newsCardParts ++
  ["</div>", "</section>"]

/-- `content = "\n".join(content_parts)` (line 1692). -/
def htmlContent (items : List NewsItem) : String :=
  joinLines ((sortedDayKeys items).flatMap (dateSectionParts items))

/-- One source filter tab (lines 1611-1617).  All dynamic fields except
`filter_id` pass through `escape_html`. -/
def renderFilterTab (source : String) (count : Nat) : String :=
  "<button class=\"filter-tab\" data-filter=\"" ++ filterId source ++ "\">" ++
  "<span class=\"filter-tab-icon " ++ get_source_icon_class source ++ "\">" ++
    get_source_emoji source ++ "</span>" ++
  escape_html source ++
  "<span class=\"filter-tab-count\">" ++ natRepr count ++ "</span>" ++
  "</button>"

/-- The joined filter tabs (lines 1606-1618): sources ascending with their
counts. -/
def sourceFiltersHtml (items : List NewsItem) : String :=
  joinLines ((sortLe strLe (firstOcc (items.map (fun it => it.source)))).map
    (fun src => renderFilterTab src (items.countP (fun it => it.source == src))))

/-- One date-navigation link (lines 1625-1630). -/
def dateNavItem (dk : String) (active : Bool) : String :=
  "<a href=\"#date-" ++ dk ++ "\" class=\"date-nav-item" ++
    (if active then " active" else "") ++ "\">" ++
  "📅 " ++ dk ++
  "<span class=\"date-nav-weekday\">" ++ get_weekday_jp dk ++ "</span>" ++
  "</a>"

/-- The joined date navigation (lines 1621-1631); the first entry is
`active`. -/
def dateNavHtml (items : List NewsItem) : String :=
  joinLines
    (match sortedDayKeys items with
     | [] => []
     | k :: ks => dateNavItem k true :: ks.map (fun dk => dateNavItem dk false))

/-- One archive link (lines 1697-1704).  `filename` and `period_label` are
interpolated without `escape_html`. -/
def renderArchiveItem (filename periodLabel : String) (isCurrent : Bool) : String :=
  "<a href=\"" ++ filename ++ "\" class=\"archive-item" ++
    (if isCurrent then " current" else "") ++ "\">" ++
  "<span class=\"archive-item-icon\">📅</span>" ++
  periodLabel ++
  "</a>"

/-- The archive block (lines 1695-1717). -/
def archiveSection (archives : List (String × String × Bool)) : String :=
  if archives ≠ [] then
    "\n            <div class=\"archive-section\">\n" ++
    "                <div class=\"archive-header\">\n" ++
    "                    <div class=\"archive-icon\">📚</div>\n" ++
    "                    <div class=\"archive-title\">過去のニュース一覧</div>\n" ++
    "                </div>\n" ++
    "                <div class=\"archive-list\">\n                    " ++
    strJoin (archives.map (fun a => renderArchiveItem a.1 a.2.1 a.2.2)) ++
    "\n                </div>\n            </div>\n        "
  else ""

/-! ## Summary parsing

Two passes exist in the source: the inline categorized pass of
`generate_html` (lines 1456-1518 with fallbacks 1552-1586) and the
standalone `parse_summary_to_categories` (lines 1814-1884) used by the
summary-history page.  Their small regular expressions are embedded as
scanners over `List Char` with the `re` engine's leftmost-match,
backtracking semantics. -/

/-- The four category labels, in the insertion order of the Python dict. -/
def catNames : List String :=
  ["📜 法改正・制度変更", "⚖️ 裁判例・判例", "💰 助成金・補助金", "📌 その他重要トピック"]

/-- The `color` field attached to a category label. -/
def catColor (cn : String) : String :=
  if cn = "📜 法改正・制度変更" then "law"
  else if cn = "⚖️ 裁判例・判例" then "court"
  else if cn = "💰 助成金・補助金" then "subsidy"
  else "other"

/-- The `icon` field attached to a category label. -/
def catIcon (cn : String) : String :=
  if cn = "📜 法改正・制度変更" then "📜"
  else if cn = "⚖️ 裁判例・判例" then "⚖️"
  else if cn = "💰 助成金・補助金" then "💰"
  else "📌"

/-- Category-heading match (lines 1494-1497 and 1852-1855): the first
label that contains the heading text or is contained in it. -/
def matchCategory (headerText : String) : Option String :=
  catNames.find? (fun cn => pyIn cn headerText || pyIn headerText cn)

/-- First occurrence of `d` in `cs`: the text before it and the text after
it. -/
def findSplitAt (d : List Char) : List Char → Option (List Char × List Char)
  | [] => if d.isEmpty then some ([], []) else none
  | c :: cs =>
    if d.isPrefixOf (c :: cs) then some ([], (c :: cs).drop d.length)
    else (findSplitAt d cs).map (fun p => (c :: p.1, p.2))

/-- Non-greedy closing delimiter for `d(.+?)d`: the first occurrence of
`d` at distance at least one. -/
def nonGreedyClose (d : List Char) : List Char → Option (List Char × List Char)
  | [] => none
  | c :: cs => (findSplitAt d cs).map (fun p => (c :: p.1, p.2))

/-- `re.sub(d + '(.+?)' + d, r'\1', s)`, scanning left to right as the
`re` engine does; the fuel always exceeds the number of scanning steps. -/
def reSubPairedFuel (d : List Char) : Nat → List Char → List Char
  | 0, l => l
  | _ + 1, [] => []
  | fuel + 1, c :: cs =>
    if d.isPrefixOf (c :: cs) then
      match nonGreedyClose d ((c :: cs).drop d.length) with
      | some (inner, after) => inner ++ reSubPairedFuel d fuel after
      | none => c :: reSubPairedFuel d fuel cs
    else c :: reSubPairedFuel d fuel cs

/-- Removal of one paired Markdown delimiter (`**`, `*`, backtick). -/
def reSubPaired (d : String) (s : String) : String :=
  ⟨reSubPairedFuel d.data (s.data.length + 1) s.data⟩

/-- Attempt to match `\[関連キーワード[:：]\s*([^\]]+)\]` at the head of
`cs`; on success return the comma-split, stripped keyword list. -/
def kwAnnAt (cs : List Char) : Option (List String) :=
  let tag := "[関連キーワード".data
  if tag.isPrefixOf cs then
    match cs.drop tag.length with
    | c :: rest =>
      if c = ':' ∨ c = '：' then
        let run := rest.takeWhile (fun x => x ≠ ']')
        let rest2 := rest.dropWhile (fun x => x ≠ ']')
        if run ≠ [] ∧ rest2 ≠ [] then
          let g := run.dropWhile Char.isWhitespace
          let g := if g.isEmpty then run.drop (run.length - 1) else g
          some ((pySplitChar ',' ⟨g⟩).map pyStrip)
        else none
      else none
    | [] => none
  else none

/-- `re.search` for the keyword annotation: at the first matching
position, return the text before the match and the keyword list. -/
def findKwAnn : List Char → Option (List Char × List String)
  | [] => none
  | c :: cs =>
    match kwAnnAt (c :: cs) with
    | some kws => some ([], kws)
    | none => (findKwAnn cs).map (fun p => (c :: p.1, p.2))

/-- `parse_summary_line` (lines 1470-1484): extract the trailing keyword
annotation, then strip `**bold**`, `*italic*` and backtick code markers,
then strip whitespace. -/
def parse_summary_line (line : String) : String × List String :=
  let p := findKwAnn line.data
  let keywords := match p with | some q => q.2 | none => []
  let rest := match p with | some q => pyStrip ⟨q.1⟩ | none => line
  let rest := reSubPaired "**" rest
  let rest := reSubPaired "*" rest
  let rest := reSubPaired "`" rest
  (pyStrip rest, keywords)

/-- `clean_text` of `parse_summary_to_categories` (lines 1828-1835): the
same operations, but with the Markdown subs BEFORE the keyword-annotation
cut. -/
def clean_text (text : String) : String :=
  let t := reSubPaired "**" text
  let t := reSubPaired "*" t
  let t := reSubPaired "`" t
  match findKwAnn t.data with
  | some q => pyStrip (pyStrip ⟨q.1⟩)
  | none => pyStrip t

/-- `re.match(r'^\d+[\.\)]\s*(.+)$', line)` (line 1508), including the
backtracking of `\s*` when `.+` would otherwise be empty. -/
def matchNumbered (line : String) : Option String :=
  let ds := line.data.takeWhile Char.isDigit
  let rest := line.data.dropWhile Char.isDigit
  if ds ≠ [] then
    match rest with
    | c :: rest2 =>
      if c = '.' ∨ c = ')' then
        let rest3 := rest2.dropWhile Char.isWhitespace
        if rest3 ≠ [] then some ⟨rest3⟩
        else if rest2 ≠ [] then some ⟨rest2.drop (rest2.length - 1)⟩
        else none
      else none
    | [] => none
  else none

/-- Item recognition of the categorized pass in `generate_html`
(lines 1502-1510): glyph bullets, `* `, or a numbered line; `None` / empty
results are collapsed to `none` exactly as the `if item_text:` guard
does. -/
def extractItemGH (line : String) : Option String :=
  if pyStarts line "- " || pyStarts line "・" || pyStarts line "• " then
    let t := pyStrip (pyLstrip line ['-', '・', '•', ' '])
    if t ≠ "" then some t else none
  else if pyStarts line "* " then
    let t := pyStrip (pyLstrip line ['*', ' '])
    if t ≠ "" then some t else none
  else if !(pyStarts line "#") && !(pyStarts line "**") then
    matchNumbered line
  else none

/-- Item recognition of the FLAT fallback in `generate_html`
(lines 1562-1565): glyph bullets and `* ` only — no numbered lines. -/
def extractItemFlat (line : String) : Option String :=
  if pyStarts line "- " || pyStarts line "・" || pyStarts line "• " then
    let t := pyStrip (pyLstrip line ['-', '・', '•', ' '])
    if t ≠ "" then some t else none
  else if pyStarts line "* " then
    let t := pyStrip (pyLstrip line ['*', ' '])
    if t ≠ "" then some t else none
  else none

/-- State of the inline categorized pass of `generate_html`:
the current category and the appended `(category, text, keywords)`
items. -/
structure GHState where
  current : Option String
  acc : List (String × String × List String)
deriving DecidableEq, Repr

/-- One line of the categorized pass of `generate_html`
(lines 1486-1518).  On a heading line that matches no label the current
category is left UNCHANGED (the `for ... break` loop has no else-reset). -/
def ghStep (st : GHState) (rawLine : String) : GHState :=
  let line := pyStrip rawLine
  if line = "" then st
  else if pyStarts line "## " then
    match matchCategory (pyStrip (pyDrop line 3)) with
    | some cn => { st with current := some cn }
    | none => st
  else
    match st.current with
    | none => st
    | some cat =>
      match extractItemGH line with
      | none => st
      | some itemText =>
        let tk := parse_summary_line itemText
        if tk.1 ≠ "" then { st with acc := st.acc ++ [(cat, tk.1, tk.2)] } else st

/-- The categorized pass over a whole summary text. -/
def ghRun (summary : String) : GHState :=
  (pySplitChar '\n' summary).foldl ghStep { current := none, acc := [] }

/-- `categories[cat]["items"]` after the pass. -/
def ghCatItems (summary : String) (cn : String) : List (String × List String) :=
  (ghRun summary).acc.filterMap (fun e => if e.1 = cn then some e.2 else none)

/-- One `<li>` of the summary block (lines 1528-1540 and 1569-1581). -/
def summaryLi (text : String) (keywords : List String) : String :=
  let keywordsAttr := if keywords ≠ [] then escape_html (strIntercalate "," keywords) else ""
  let keywordsHtml :=
    if keywords ≠ [] then
      "<div class=\"summary-keywords\">" ++
      strJoin (keywords.map (fun k =>
        "<span class=\"summary-keyword\">" ++ escape_html k ++ "</span>")) ++
      "</div>"
    else ""
  "<li data-keywords=\"" ++ keywordsAttr ++ "\">" ++
  "<div><div>" ++ escape_html text ++ "</div>" ++ keywordsHtml ++ "</div>" ++
  "</li>"

/-- Python `cat_name.split(" ", 1)[1] if " " in cat_name else cat_name`. -/
def afterFirstSpace (s : String) : String :=
  if pyIn " " s then ⟨(s.data.dropWhile (fun c => c ≠ ' ')).drop 1⟩ else s

/-- One category section (lines 1542-1550). -/
def renderCatSection (cn : String) (items : List (String × List String)) : String :=
  "\n                <div class=\"summary-category summary-category-" ++ catColor cn ++ "\">\n" ++
  "                    <div class=\"summary-category-header\">\n" ++
  "                        <span class=\"summary-category-icon\">" ++ catIcon cn ++ "</span>\n" ++
  "                        <span class=\"summary-category-title\">" ++
    escape_html (afterFirstSpace cn) ++ "</span>\n" ++
  "                    </div>\n" ++
  "                    <ul>" ++ strJoin (items.map (fun it => summaryLi it.1 it.2)) ++ "</ul>\n" ++
  "                </div>\n            "

/-- `category_sections` (lines 1521-1550): sections of the non-empty
categories, in fixed category order. -/
def ghSections (summary : String) : List String :=
  catNames.filterMap (fun cn =>
    let items := ghCatItems summary cn
    if items ≠ [] then some (renderCatSection cn items) else none)

/-- `list_items` of the flat fallback (lines 1556-1581). -/
def flatListItems (summary : String) : List String :=
  (pySplitChar '\n' summary).filterMap (fun rawLine =>
    let line := pyStrip rawLine
    if line = "" then none
    else
      match extractItemFlat line with
      | none => none
      | some itemText =>
        let tk := parse_summary_line itemText
        if tk.1 ≠ "" then some (summaryLi tk.1 tk.2) else none)

/-- The `paragraphs` list of the paragraph fallback (line 1585). -/
def paraParagraphs (summary : String) : List String :=
  (pySplitOn "\n\n" summary).filterMap (fun p =>
    if pyStrip p ≠ "" then some ("<p>" ++ escape_html (pyStrip p) ++ "</p>") else none)

/-- The paragraph fallback (lines 1585-1586). -/
def paraFallback (summary : String) : String :=
  if paraParagraphs summary ≠ [] then strJoin (paraParagraphs summary)
  else "<p>" ++ escape_html summary ++ "</p>"

/-- `summary_content` with its fallback chain (lines 1552-1586):
categorized sections, else flat list, else paragraphs. -/
def summaryContent (summary : String) : String :=
  if ghSections summary ≠ [] then strJoin (ghSections summary)
  else if flatListItems summary ≠ [] then "<ul>" ++ strJoin (flatListItems summary) ++ "</ul>"
  else paraFallback summary

/-- The summary card wrapper (lines 1588-1601). -/
def summarySection (summary : String) : String :=
  "\n            <div class=\"summary-card\">\n" ++
  "                <div class=\"summary-icon\">🤖</div>\n" ++
  "                <div class=\"summary-body\">\n" ++
  "                    <div class=\"summary-header\">\n" ++
  "                        <div class=\"summary-title\">今週のポイント</div>\n" ++
  "                        <div class=\"ai-badge\">✨ AI Generated</div>\n" ++
  "                    </div>\n" ++
  "                    <div class=\"summary-content\">\n                        " ++
  summaryContent summary ++
  "\n                    </div>\n                </div>\n            </div>\n        "

/-! ## `parse_summary_to_categories` (lines 1814-1884) -/

/-- One emitted category section of `parse_summary_to_categories`. -/
structure CatSection where
  name : String
  icon : String
  color : String
  items : List String
deriving DecidableEq, Repr

/-- State of `parse_summary_to_categories`' loop. -/
structure PSState where
  current : Option String
  curItems : List String
  result : List CatSection
deriving DecidableEq, Repr

/-- Close the pending category section, as the
`if current_category and current_items: result.append(...)` blocks
(lines 1843-1848 and 1867-1872) do. -/
def psFlush (st : PSState) : PSState :=
  match st.current with
  | some cn =>
    if st.curItems ≠ [] then
      { st with result := st.result ++
          [{ name := cn, icon := catIcon cn, color := catColor cn, items := st.curItems }] }
    else st
  | none => st

/-- Item recognition of `parse_summary_to_categories` (lines 1860-1863):
glyph bullets and `* ` — no numbered lines. -/
def extractItemPS (line : String) : Option String :=
  if pyStarts line "- " || pyStarts line "・" || pyStarts line "• " then
    let t := pyStrip (pyLstrip line ['-', '・', '•', ' '])
    if t ≠ "" then some t else none
  else if pyStarts line "* " then
    let t := pyStrip (pyLstrip line ['*', ' '])
    if t ≠ "" then some t else none
  else none

/-- One line of `parse_summary_to_categories` (lines 1837-1865).  On ANY
heading line the current category is first reset (`current_category =
None`, line 1850) and then re-established only if a label matches. -/
def psStep (st : PSState) (rawLine : String) : PSState :=
  let line := pyStrip rawLine
  if line = "" then st
  else if pyStarts line "## " then
    let st := psFlush st
    { st with current := matchCategory (pyStrip (pyDrop line 3)), curItems := [] }
  else
    match st.current with
    | none => st
    | some _ =>
      match extractItemPS line with
      | none => st
      | some itemText => { st with curItems := st.curItems ++ [clean_text itemText] }

/-- `parse_summary_to_categories` (lines 1814-1884), including its flat
fallback over `- ` / `・` bullets. -/
def parse_summary_to_categories (summaryText : String) : List CatSection :=
  let lines := pySplitChar '\n' summaryText
  let st := psFlush (lines.foldl psStep { current := none, curItems := [], result := [] })
  if st.result ≠ [] then st.result
  else
    let items := lines.filterMap (fun rawLine =>
      let line := pyStrip rawLine
      if pyStarts line "- " || pyStarts line "・" then
        some (clean_text (pyStrip (pyLstrip line ['-', '・', '•', ' '])))
      else none)
    if items ≠ [] then
      [{ name := "トピック", icon := "📌", color := "other", items := items }]
    else []

/-! ## `generate_html` assembly (lines 1424-1733)

`HTML_TEMPLATE` (lines 72-1158) is a constant format string whose
placeholders appear in the order
`{period}, {total_count}, {source_count}, {day_count}, {period},
{collected_at}, {total_count}, {source_filters}, {date_nav},
{summary_section}, {content}, {archive_section}`.
The chunks below keep the placeholder structure and the dynamic markup of
the template; the surrounding page-static CSS (lines 82-1009) and
interactive JavaScript (lines 1075-1155), which contain no placeholders,
are elided to the markers `STATIC-CSS-ELIDED` / `STATIC-JS-ELIDED`. -/

def htmlT0 : String :=
  "<!DOCTYPE html>\n<html lang=\"ja\">\n<head>\n    <meta charset=\"UTF-8\">\n    <title>iand weekly | "

def htmlT1 : String :=
  "</title>\n    <style>STATIC-CSS-ELIDED</style>\n</head>\n<body>\n    <header class=\"header\">\n                    <span class=\"header-stat-value\">"

def htmlT2 : String :=
  "</span>\n                    <span class=\"header-stat-label\">ニュース</span>\n                    <span class=\"header-stat-value\">"

def htmlT3 : String :=
  "</span>\n                    <span class=\"header-stat-label\">ソース</span>\n                    <span class=\"header-stat-value\">"

def htmlT4 : String :=
  "</span>\n                    <span class=\"header-stat-label\">日間</span>\n            <div class=\"header-meta\">\n                "

def htmlT5 : String :=
  "<br>\n                <small>更新: "

def htmlT6 : String :=
  "</small>\n            </div>\n    </header>\n    <div class=\"layout\">\n                    <button class=\"filter-tab active\" data-filter=\"all\">\n                        すべて\n                        <span class=\"filter-tab-count\">"

def htmlT7 : String :=
  "</span>\n                    </button>\n                    "

def htmlT8 : String :=
  "\n                <nav class=\"date-nav\">\n                    "

def htmlT9 : String :=
  "\n                </nav>\n        <main class=\"main-content\">\n            "

def htmlT10 : String := "\n            "

def htmlT11 : String := "\n            "

def htmlT12 : String :=
  "\n        </main>\n    </div>\n    <footer>iand weekly</footer>\n    <script>STATIC-JS-ELIDED</script>\n</body>\n</html>\n"

/-- `generate_html` (lines 1424-1733); `datetime.now()` (line 1725) is
passed in as `now`, the archive list as computed by `get_archive_list`. -/
def generate_html (items : List NewsItem) (startDate endDate : DateTime)
    (summary : Option String) (archives : List (String × String × Bool))
    (now : DateTime) : String :=
  let period := fmtDate startDate ++ " 〜 " ++ fmtDate endDate
  let summarySec := match summary with | some s => summarySection s | none => ""
  htmlT0 ++ period ++
  htmlT1 ++ natRepr items.length ++
  htmlT2 ++ natRepr (firstOcc (items.map (fun it => it.source))).length ++
  htmlT3 ++ natRepr (firstOcc (items.map dateKey)).length ++
  htmlT4 ++ period ++
  htmlT5 ++ fmtMin now ++
  htmlT6 ++ natRepr items.length ++
  htmlT7 ++ sourceFiltersHtml items ++
  htmlT8 ++ dateNavHtml items ++
  htmlT9 ++ summarySec ++
  htmlT10 ++ htmlContent items ++
  htmlT11 ++ archiveSection archives ++
  htmlT12

/-! ## `get_archive_list` (lines 1736-1758)

The filesystem scan `sorted(DOCS_DIR.glob("????-??-??_????-??-??.html"),
reverse=True)` is an external input; its result (file names, newest
first) is the `scanned` parameter. -/

/-- Processing of one scanned file name (lines 1744-1751). -/
def archiveEntry (currentFilename : String) (filename : String) :
    Option (String × String × Bool) :=
  match pySplitOn "_" (pyReplace filename ".html" "") with
  | [s, e] => some (filename, s ++ " 〜 " ++ e, filename == currentFilename)
  | _ => none

/-- `get_archive_list` (lines 1736-1758): the scanned entries in order,
with the current period's entry prepended when absent. -/
def get_archive_list (scanned : List String) (currentStart currentEnd : String) :
    List (String × String × Bool) :=
  if (scanned.filterMap (archiveEntry (currentStart ++ "_" ++ currentEnd ++ ".html"))).any
      (fun a => a.1 == currentStart ++ "_" ++ currentEnd ++ ".html") then
    scanned.filterMap (archiveEntry (currentStart ++ "_" ++ currentEnd ++ ".html"))
  else
    (currentStart ++ "_" ++ currentEnd ++ ".html",
      currentStart ++ " 〜 " ++ currentEnd, true) ::
      scanned.filterMap (archiveEntry (currentStart ++ "_" ++ currentEnd ++ ".html"))

/-! ## Run orchestrator (`main`, lines 2248-2323)

Feed fetching, the summarizer and the directory scan are external
collaborators, passed in as `allItems` (the concatenation of the per-feed
`fetch_feed` results), `summarizerResult` (the `generate_ai_summary`
outcome) and `scanned`.  The trace records the paths handed to
`write_text`, in call order; their contents come from the embedded
renderers above. -/

/-- Outcome of one run: the reported number of in-window articles and the
written file paths. -/
structure RunResult where
  reportedCount : Nat
  writes : List String
deriving DecidableEq, Repr

/-- `main` after the fetch loop (lines 2253-2323). -/
def mainRun (days : Nat) (now : DateTime) (allItems : List NewsItem)
    (summarizerResult : Option String) (_scanned : List String)
    (noSummary noMarkdown noHtml : Bool) : RunResult :=
  let endDate := truncateDay now
  let startDate := subDays endDate (days - 1)
  let filteredItems := filter_by_date_range allItems startDate endDate
  if filteredItems = [] then { reportedCount := 0, writes := [] }
  else
    let startStr := fmtDate startDate
    let endStr := fmtDate endDate
    let summary := if noSummary then none else summarizerResult
    let summaryWrites :=
      match summary with
      | some _ => ["docs/summaries/" ++ startStr ++ "_" ++ endStr ++ ".json"]
      | none => []
    let markdownWrites :=
      if noMarkdown then [] else ["news/" ++ startStr ++ "_" ++ endStr ++ ".md"]
    let htmlWrites :=
      if noHtml then []
      else ["docs/index.html", "docs/" ++ startStr ++ "_" ++ endStr ++ ".html",
            "docs/summary.html"]
    { reportedCount := filteredItems.length,
      writes := summaryWrites ++ markdownWrites ++ htmlWrites }

/-! ## Supporting lemmas: characters, counting, escaping -/

theorem strMk_append (a b : List Char) : (⟨a⟩ : String) ++ (⟨b⟩ : String) = ⟨a ++ b⟩ := rfl

theorem strData_mk (l : List Char) : (⟨l⟩ : String).data = l := rfl

theorem strEq_empty_iff (s : String) : s = "" ↔ s.data = [] := by
  constructor
  · intro h; rw [h]
  · intro h; apply String.ext; rw [h]

theorem countChar_append (c : Char) (a b : String) :
    countChar c (a ++ b) = countChar c a + countChar c b := by
  simp [countChar, String.data_append, List.count_append]

/-- Total number of raw `"`, `<`, `>` characters in a string; the
escaping claims say dynamic fields contribute zero of them. -/
def rawSpecials (s : String) : Nat :=
  countChar '"' s + countChar '<' s + countChar '>' s

theorem rawSpecials_append (a b : String) :
    rawSpecials (a ++ b) = rawSpecials a + rawSpecials b := by
  simp [rawSpecials, countChar_append]; omega

theorem count_escChar {c : Char} (hc : c = '"' ∨ c = '<' ∨ c = '>') (a : Char) :
    (escChar a).count c = 0 := by
  unfold escChar
  split_ifs with h1 h2 h3 h4 <;>
    rcases hc with h | h | h <;> subst h <;>
      simp_all [List.count_cons]

theorem countChar_escape {c : Char} (hc : c = '"' ∨ c = '<' ∨ c = '>') (s : String) :
    countChar c (escape_html s) = 0 := by
  show ((s.data.map escChar).flatten).count c = 0
  rw [List.count_flatten, List.map_map]
  apply List.sum_eq_zero
  intro x hx
  rcases List.mem_map.mp hx with ⟨a, _, rfl⟩
  exact count_escChar hc a

theorem rawSpecials_escape (s : String) : rawSpecials (escape_html s) = 0 := by
  unfold rawSpecials
  rw [countChar_escape (Or.inl rfl), countChar_escape (Or.inr (Or.inl rfl)),
      countChar_escape (Or.inr (Or.inr rfl))]

theorem countChar_pyTake_of_zero {c : Char} {s : String} (h : countChar c s = 0)
    (n : Nat) : countChar c (pyTake s n) = 0 :=
  Nat.le_zero.mp (h ▸ (List.take_sublist n s.data).count_le c)

theorem rawSpecials_pyTake_of_zero {s : String} (h : rawSpecials s = 0) (n : Nat) :
    rawSpecials (pyTake s n) = 0 := by
  unfold rawSpecials at h ⊢
  rw [countChar_pyTake_of_zero (by omega) n, countChar_pyTake_of_zero (by omega) n,
      countChar_pyTake_of_zero (by omega) n]

theorem digChar_ne {c : Char} (hc : c = '"' ∨ c = '<' ∨ c = '>') (n : Nat) :
    ¬ digChar n = c := by
  unfold digChar
  rcases hc with h | h | h <;> subst h <;> split <;> decide

theorem rawSpecials_pad2 (n : Nat) : rawSpecials (pad2 n) = 0 := by
  unfold rawSpecials countChar pad2
  simp [List.count_cons, digChar_ne (Or.inl rfl), digChar_ne (Or.inr (Or.inl rfl)),
    digChar_ne (Or.inr (Or.inr rfl))]

theorem rawSpecials_pad4 (n : Nat) : rawSpecials (pad4 n) = 0 := by
  unfold rawSpecials countChar pad4
  simp [List.count_cons, digChar_ne (Or.inl rfl), digChar_ne (Or.inr (Or.inl rfl)),
    digChar_ne (Or.inr (Or.inr rfl))]

theorem rawSpecials_natDigs {c : Char} (hc : c = '"' ∨ c = '<' ∨ c = '>') :
    ∀ fuel n, (natDigsFuel digChar fuel n).count c = 0
  | 0, _ => rfl
  | fuel + 1, n => by
    unfold natDigsFuel
    split
    · rfl
    · rw [List.count_append, rawSpecials_natDigs hc fuel (n / 10)]
      simp [List.count_cons, digChar_ne hc]

theorem rawSpecials_natRepr (n : Nat) : rawSpecials (natRepr n) = 0 := by
  unfold natRepr
  split
  · decide
  · unfold rawSpecials countChar
    rw [strData_mk, rawSpecials_natDigs (Or.inl rfl),
      rawSpecials_natDigs (Or.inr (Or.inl rfl)), rawSpecials_natDigs (Or.inr (Or.inr rfl))]

theorem rawSpecials_fmtHM (t : DateTime) : rawSpecials (fmtHM t) = 0 := by
  unfold fmtHM
  rw [rawSpecials_append, rawSpecials_append, rawSpecials_pad2, rawSpecials_pad2]
  decide

theorem rawSpecials_fmtMD (t : DateTime) : rawSpecials (fmtMD t) = 0 := by
  unfold fmtMD
  rw [rawSpecials_append, rawSpecials_append, rawSpecials_pad2, rawSpecials_pad2]
  decide

theorem rawSpecials_iconClass (s : String) : rawSpecials (get_source_icon_class s) = 0 := by
  unfold get_source_icon_class
  split_ifs <;> decide

theorem rawSpecials_emoji (s : String) : rawSpecials (get_source_emoji s) = 0 := by
  unfold get_source_emoji
  split_ifs <;> decide

theorem strJoin_nil : strJoin [] = "" := rfl

theorem strJoin_cons (x : String) (l : List String) :
    strJoin (x :: l) = x ++ strJoin l := rfl

theorem joinLines_nil : joinLines [] = "" := rfl

theorem joinLines_singleton (x : String) : joinLines [x] = x := by
  show (⟨x.data ++ []⟩ : String) = x
  apply String.ext
  simp

theorem joinLines_cons (x : String) (l : List String) (h : l ≠ []) :
    joinLines (x :: l) = x ++ "\n" ++ joinLines l := by
  match l with
  | [] => exact absurd rfl h
  | y :: t =>
    show (⟨(List.intersperse "\n".data (x.data :: y.data :: t.map String.data)).flatten⟩ : String) = _
    rw [List.intersperse_cons_cons]
    apply String.ext
    simp [String.data_append, joinLines, strIntercalate]

theorem rawSpecials_joinLines : ∀ l : List String,
    rawSpecials (joinLines l) = (l.map rawSpecials).sum
  | [] => by decide
  | [x] => by rw [joinLines_singleton]; simp
  | x :: y :: t => by
    rw [joinLines_cons x (y :: t) (by simp), rawSpecials_append, rawSpecials_append,
      rawSpecials_joinLines (y :: t)]
    have h : rawSpecials "\n" = 0 := by decide
    simp [h]

theorem escape_html_empty_iff (s : String) : escape_html s = "" ↔ s = "" := by
  rw [strEq_empty_iff, strEq_empty_iff]
  show ((s.data.map escChar).flatten = []) ↔ _
  cases s.data with
  | nil => simp
  | cons c t =>
    simp only [List.map_cons, List.flatten_cons]
    constructor
    · intro h
      exfalso
      have hc : escChar c = [] := (List.append_eq_nil.mp h).1
      unfold escChar at hc
      split_ifs at hc
    · intro h
      exact absurd h (List.cons_ne_nil c t)

theorem rawSpecials_cardSummaryEscaped (item : NewsItem) :
    rawSpecials (cardSummaryEscaped item) = 0 := by
  unfold cardSummaryEscaped
  split
  · exact rawSpecials_escape _
  · decide

theorem rawSpecials_cardShortSummary (item : NewsItem) :
    rawSpecials (cardShortSummary item) = 0 := by
  unfold cardShortSummary
  split
  · rw [rawSpecials_append, rawSpecials_pyTake_of_zero (rawSpecials_cardSummaryEscaped item)]
    decide
  · exact rawSpecials_cardSummaryEscaped item

theorem cardSummaryEscaped_of_ne (item : NewsItem) (hs : item.summary ≠ "") :
    cardSummaryEscaped item = escape_html item.summary := by
  unfold cardSummaryEscaped; exact if_pos hs

theorem cardSummaryEscaped_of_eq (item : NewsItem) (hs : item.summary = "") :
    cardSummaryEscaped item = "" := by
  unfold cardSummaryEscaped
  rw [if_neg]
  intro hne; exact hne hs

theorem cardShortSummary_empty_iff (item : NewsItem) :
    cardShortSummary item = "" ↔ item.summary = "" := by
  by_cases hs : item.summary = ""
  · constructor
    · intro _; exact hs
    · intro _
      unfold cardShortSummary
      rw [cardSummaryEscaped_of_eq item hs]
      decide
  · constructor
    · intro h
      exfalso
      unfold cardShortSummary at h
      rw [cardSummaryEscaped_of_ne item hs] at h
      by_cases hl : pyLen (escape_html item.summary) > 120
      · rw [if_pos hl] at h
        have hd := (strEq_empty_iff _).mp h
        rw [String.data_append] at hd
        simp at hd
      · rw [if_neg hl] at h
        exact hs ((escape_html_empty_iff _).mp h)
    · intro h; exact absurd h hs

theorem rawSpecials_filterTab (source : String) (count : Nat)
    (h : rawSpecials (filterId source) = 0) :
    rawSpecials (renderFilterTab source count) = 20 := by
  unfold renderFilterTab
  simp only [rawSpecials_append, h, rawSpecials_iconClass, rawSpecials_emoji,
    rawSpecials_escape, rawSpecials_natRepr]
  decide

theorem rawSpecials_newsCard (item : NewsItem)
    (h : rawSpecials (filterId item.source) = 0) :
    rawSpecials (renderNewsCard item) = if item.summary = "" then 72 else 78 := by
  unfold renderNewsCard newsCardParts
  rw [rawSpecials_joinLines]
  by_cases hs : item.summary = ""
  · have he : cardShortSummary item = "" := (cardShortSummary_empty_iff item).mpr hs
    simp only [he, hs, ne_eq, not_true_eq_false, if_false, if_true,
      List.append_nil, List.map_append, List.map_cons, List.map_nil,
      List.sum_append, List.sum_cons, List.sum_nil,
      rawSpecials_append, rawSpecials_escape, rawSpecials_iconClass, rawSpecials_emoji,
      rawSpecials_fmtHM, rawSpecials_fmtMD, h]
    decide
  · have he : ¬ cardShortSummary item = "" :=
      fun hh => hs ((cardShortSummary_empty_iff item).mp hh)
    simp only [he, hs, ne_eq, not_false_iff, if_true, if_false,
      List.append_nil, List.map_append, List.map_cons, List.map_nil,
      List.sum_append, List.sum_cons, List.sum_nil,
      rawSpecials_append, rawSpecials_escape, rawSpecials_iconClass, rawSpecials_emoji,
      rawSpecials_fmtHM, rawSpecials_fmtMD, rawSpecials_cardShortSummary, h]
    decide

theorem rawSpecials_spanJoin : ∀ kws : List String,
    rawSpecials (strJoin (kws.map (fun k =>
      "<span class=\"summary-keyword\">" ++ escape_html k ++ "</span>"))) = 6 * kws.length
  | [] => by decide
  | k :: t => by
    rw [List.map_cons, strJoin_cons]
    simp only [rawSpecials_append, rawSpecials_escape, rawSpecials_spanJoin t]
    have h1 : rawSpecials "<span class=\"summary-keyword\">" = 4 := by decide
    have h2 : rawSpecials "</span>" = 2 := by decide
    rw [h1, h2, List.length_cons]
    ring

theorem rawSpecials_summaryLi (text : String) (keywords : List String) :
    rawSpecials (summaryLi text keywords) =
      14 + if keywords = [] then 0 else 6 + 6 * keywords.length := by
  unfold summaryLi
  by_cases hk : keywords = []
  · simp only [hk, ne_eq, not_true_eq_false, if_false, if_true,
      rawSpecials_append, rawSpecials_escape]
    decide
  · simp only [hk, ne_eq, not_false_iff, if_true, if_false,
      rawSpecials_append, rawSpecials_escape, rawSpecials_spanJoin]
    have h1 : rawSpecials "<div class=\"summary-keywords\">" = 4 := by decide
    have h2 : rawSpecials "</div>" = 2 := by decide
    have h3 : rawSpecials "<li data-keywords=\"" = 2 := by decide
    have h4 : rawSpecials "\">" = 2 := by decide
    have h5 : rawSpecials "<div><div>" = 4 := by decide
    have h7 : rawSpecials "</li>" = 2 := by decide
    rw [h1, h2, h3, h4, h5, h7]
    ring

theorem rawSpecials_archiveItem (fn label : String) (cur : Bool)
    (h1 : rawSpecials fn = 0) (h2 : rawSpecials label = 0) :
    rawSpecials (renderArchiveItem fn label cur) = 14 := by
  unfold renderArchiveItem
  have hcur : rawSpecials (if cur then " current" else "") = 0 := by
    cases cur <;> decide
  simp only [rawSpecials_append, h1, h2, hcur]
  decide

/-- The escaping property C1 asserts for the dynamic fragments of the HTML
report (source filter tabs, news cards, summary list items, archive
links): every dynamic field is escaped, so each fragment carries exactly
the raw `"` / `<` / `>` characters of its static markup. -/
def c1EscapingClaim : Prop :=
  (∀ source count, rawSpecials (renderFilterTab source count) = 20) ∧
  (∀ item : NewsItem, rawSpecials (renderNewsCard item) =
    if item.summary = "" then 72 else 78) ∧
  (∀ text keywords, rawSpecials (summaryLi text keywords) =
    14 + if keywords = [] then 0 else 6 + 6 * keywords.length) ∧
  (∀ fn label cur, rawSpecials (renderArchiveItem fn label cur) = 14)

/-- C1 counterexample: the claim as stated is false at the concrete source
name `a"b`.  That name reaches `get_source_icon_class`'s `default` branch,
so `filter_id = source.lower().replace(" ", "-") = a"b` is interpolated
into the `data-filter` attribute WITHOUT `escape_html`, leaking one raw
quote beyond the fragment's 20 static specials. -/
theorem c1_counterexample : ¬ c1EscapingClaim := by
  intro h
  have h1 := h.1 "a\"b" 1
  have h2 : rawSpecials (renderFilterTab "a\"b" 1) = 21 := by decide
  omega

/-- C1 (amended): titles, links, summaries, source names and keyword tags
are HTML-escaped in every fragment, but the source-derived filter
identifier (`data-filter` / `data-source`) and the archive file name and
period label are interpolated raw; whenever those carry no raw `"`, `<`,
`>`, each rendered fragment contains exactly the raw specials of its
static markup. -/
theorem c1_escaping_amended :
    (∀ source count, rawSpecials (filterId source) = 0 →
      rawSpecials (renderFilterTab source count) = 20) ∧
    (∀ item : NewsItem, rawSpecials (filterId item.source) = 0 →
      rawSpecials (renderNewsCard item) = if item.summary = "" then 72 else 78) ∧
    (∀ text keywords, rawSpecials (summaryLi text keywords) =
      14 + if keywords = [] then 0 else 6 + 6 * keywords.length) ∧
    (∀ fn label cur, rawSpecials fn = 0 → rawSpecials label = 0 →
      rawSpecials (renderArchiveItem fn label cur) = 14) :=
  ⟨fun source count h => rawSpecials_filterTab source count h,
   fun item h => rawSpecials_newsCard item h,
   fun text keywords => rawSpecials_summaryLi text keywords,
   fun fn label cur h1 h2 => rawSpecials_archiveItem fn label cur h1 h2⟩

/-- Closed instance of the amended C1 theorem at concrete inputs. -/
theorem c1_escaping_amended_witness :
    rawSpecials (renderFilterTab "労働新聞社" 3) = 20 ∧
    rawSpecials (renderNewsCard
      { title := "t", link := "l", published := ⟨2024, 3, 10, 9, 30, 0⟩,
        summary := "s", source := "労働新聞社" }) = 78 ∧
    rawSpecials (summaryLi "x" ["a", "b"]) = 32 ∧
    rawSpecials (renderArchiveItem "2024-03-04_2024-03-10.html"
      "2024-03-04 〜 2024-03-10" true) = 14 := by
  refine ⟨c1_escaping_amended.1 "労働新聞社" 3 (by decide), ?_, ?_,
    c1_escaping_amended.2.2.2 _ _ true (by decide) (by decide)⟩
  · have := c1_escaping_amended.2.1
      { title := "t", link := "l", published := ⟨2024, 3, 10, 9, 30, 0⟩,
        summary := "s", source := "労働新聞社" } (by decide)
    simpa using this
  · have := c1_escaping_amended.2.2.1 "x" ["a", "b"]
    simpa using this

/-- C2: the run's window is the inclusive day range `end-(days-1) .. end`
with `end` = today truncated to day granularity (for `days = 7` and today
2024-03-10 this is 2024-03-04 .. 2024-03-10); the window selector keeps an
article iff its published time truncated to day granularity satisfies
`start <= truncated <= end`, so 2024-03-03 23:59 is excluded and
2024-03-04 00:00 is included. -/
theorem c2_window :
    computeWindow 7 ⟨2024, 3, 10, 15, 42, 7⟩ =
      (⟨2024, 3, 4, 0, 0, 0⟩, ⟨2024, 3, 10, 0, 0, 0⟩) ∧
    (∀ (items : List NewsItem) (s e : DateTime) (it : NewsItem),
      it ∈ filter_by_date_range items s e ↔
        it ∈ items ∧ dtLe s (truncateDay it.published) = true ∧
          dtLe (truncateDay it.published) e = true) ∧
    filter_by_date_range [⟨"t", "l", ⟨2024, 3, 3, 23, 59, 0⟩, "", "S"⟩]
      ⟨2024, 3, 4, 0, 0, 0⟩ ⟨2024, 3, 10, 0, 0, 0⟩ = [] ∧
    filter_by_date_range [⟨"t", "l", ⟨2024, 3, 4, 0, 0, 0⟩, "", "S"⟩]
      ⟨2024, 3, 4, 0, 0, 0⟩ ⟨2024, 3, 10, 0, 0, 0⟩ =
      [⟨"t", "l", ⟨2024, 3, 4, 0, 0, 0⟩, "", "S"⟩] := by
  refine ⟨by decide, ?_, by decide, by decide⟩
  intro items s e it
  unfold filter_by_date_range
  rw [List.mem_filter]
  simp [Bool.and_eq_true]

/-! ## C3: heading lines that match no category label -/

/-- A line whose stripped form is a `## ` heading whose text matches none
of the four category labels (in either containment direction). -/
def unmatchedHeading (rawLine : String) : Prop :=
  pyStarts (pyStrip rawLine) "## " = true ∧
  matchCategory (pyStrip (pyDrop (pyStrip rawLine) 3)) = none

/-- The reset behaviour C3 asserts for the summary parser's categorized
pass, applied to both implementations (the inline pass of `generate_html`
and `parse_summary_to_categories`): an unmatched heading resets the
current category to none. -/
def c3ResetClaim : Prop :=
  (∀ (st : PSState) (line : String), unmatchedHeading line →
    (psStep st line).current = none) ∧
  (∀ (st : GHState) (line : String), unmatchedHeading line →
    (ghStep st line).current = none)

/-- C3 counterexample: in `generate_html`'s categorized pass the heading
`## 今週の総括` (matching no label) leaves the previously active category
in place instead of resetting it, so the claim as stated is false. -/
theorem c3_counterexample : ¬ c3ResetClaim :=
  fun h =>
    absurd
      (h.2 ⟨some "📜 法改正・制度変更", []⟩ "## 今週の総括" ⟨by decide, by decide⟩)
      (by decide)

/-- C3 (amended): `parse_summary_to_categories` resets the current
category to none on a heading matching no label, while `generate_html`'s
inline categorized pass leaves the current category UNCHANGED on such a
heading (so following bullets are still attributed to the previously
active category). -/
theorem c3_reset_amended :
    (∀ (st : PSState) (line : String), unmatchedHeading line →
      (psStep st line).current = none) ∧
    (∀ (st : GHState) (line : String), unmatchedHeading line →
      (ghStep st line).current = st.current) := by
  constructor
  · intro st line h
    obtain ⟨h1, h2⟩ := h
    by_cases hempty : pyStrip line = ""
    · rw [hempty] at h1; exact absurd h1 (by decide)
    · simp [psStep, hempty, h1, h2]
  · intro st line h
    obtain ⟨h1, h2⟩ := h
    by_cases hempty : pyStrip line = ""
    · rw [hempty] at h1; exact absurd h1 (by decide)
    · simp [ghStep, hempty, h1, h2]

/-- Closed instance of the amended C3 theorem at a concrete state and
heading. -/
theorem c3_reset_amended_witness :
    (psStep ⟨some "📜 法改正・制度変更", ["x"], []⟩ "## 今週の総括").current = none ∧
    (ghStep ⟨some "📜 法改正・制度変更", []⟩ "## 今週の総括").current =
      (⟨some "📜 法改正・制度変更", []⟩ : GHState).current :=
  ⟨c3_reset_amended.1 ⟨some "📜 法改正・制度変更", ["x"], []⟩ "## 今週の総括"
      ⟨by decide, by decide⟩,
   c3_reset_amended.2 ⟨some "📜 法改正・制度変更", []⟩ "## 今週の総括"
      ⟨by decide, by decide⟩⟩

/-! ## C4: the fallback chain of `generate_html`'s summary block -/

theorem strNe_empty_left (a b : String) (ha : a ≠ "") : a ++ b ≠ "" := by
  intro h
  apply ha
  have hd := (strEq_empty_iff _).mp h
  rw [String.data_append] at hd
  exact (strEq_empty_iff a).mpr (List.append_eq_nil.mp hd).1

theorem renderCatSection_ne_empty (cn : String) (items : List (String × List String)) :
    renderCatSection cn items ≠ "" := by
  unfold renderCatSection
  repeat apply strNe_empty_left
  decide

theorem ghSections_mem {s x : String} (hx : x ∈ ghSections s) :
    ∃ cn items, x = renderCatSection cn items := by
  unfold ghSections at hx
  rcases List.mem_filterMap.mp hx with ⟨cn, _, hcn⟩
  dsimp only at hcn
  split_ifs at hcn
  · exact ⟨cn, _, (Option.some.inj hcn).symm⟩

theorem paraFallback_ne_empty (s : String) : paraFallback s ≠ "" := by
  unfold paraFallback
  split
  · rename_i hp
    match hps : paraParagraphs s with
    | [] => rw [hps] at hp; exact absurd rfl hp
    | x :: rest =>
      rw [strJoin_cons]
      apply strNe_empty_left
      have hx : x ∈ paraParagraphs s := by rw [hps]; exact List.mem_cons_self x rest
      rcases List.mem_filterMap.mp hx with ⟨p, _, hpx⟩
      split_ifs at hpx
      rw [← Option.some.inj hpx]
      repeat apply strNe_empty_left
      decide
  · repeat apply strNe_empty_left
    decide

/-- The fallback-chain property C4 asserts for `generate_html`'s summary
block, including the claim that the flat fallback uses the SAME
bullet-recognition rule as the categorized pass. -/
def c4FallbackClaim : Prop :=
  (∀ s : String, s ≠ "" → summaryContent s ≠ "") ∧
  (∀ line : String, extractItemGH line = extractItemFlat line) ∧
  (∀ s : String, ghSections s = [] → flatListItems s ≠ [] →
    summaryContent s = "<ul>" ++ strJoin (flatListItems s) ++ "</ul>") ∧
  (∀ s : String, ghSections s = [] → flatListItems s = [] →
    summaryContent s = paraFallback s)

/-- C4 counterexample: the two bullet-recognition rules differ on the
numbered line `1. topic` — the categorized pass accepts it, the flat
fallback does not — so the claim as stated is false. -/
theorem c4_counterexample : ¬ c4FallbackClaim :=
  fun h => absurd (h.2.1 "1. topic") (by decide)

/-- C4 (amended): for every non-empty summary text the fallback chain
produces non-empty renderable output — categorized sections, else a flat
bullet list (recognizing only the glyph bullets `- `, `・`, `• `, `* `,
NOT the numbered lines the categorized pass also accepts), else the text
split into paragraphs. -/
theorem c4_fallback_amended :
    (∀ s : String, s ≠ "" → summaryContent s ≠ "") ∧
    (∀ s : String, ghSections s = [] → flatListItems s ≠ [] →
      summaryContent s = "<ul>" ++ strJoin (flatListItems s) ++ "</ul>") ∧
    (∀ s : String, ghSections s = [] → flatListItems s = [] →
      summaryContent s = paraFallback s) := by
  refine ⟨?_, ?_, ?_⟩
  · intro s _
    unfold summaryContent
    split
    · rename_i hsec
      match hs : ghSections s with
      | [] => rw [hs] at hsec; exact absurd rfl hsec
      | x :: rest =>
        rw [strJoin_cons]
        apply strNe_empty_left
        have hx : x ∈ ghSections s := by rw [hs]; exact List.mem_cons_self x rest
        rcases ghSections_mem hx with ⟨cn, items, rfl⟩
        exact renderCatSection_ne_empty cn items
    · split
      · apply strNe_empty_left
        apply strNe_empty_left
        decide
      · exact paraFallback_ne_empty s
  · intro s hsec hflat
    simp [summaryContent, hsec, hflat]
  · intro s hsec hflat
    simp [summaryContent, hsec, hflat]

/-- Closed instance of the amended C4 theorem: a text with no recognized
structure still renders (as a paragraph block). -/
theorem c4_fallback_amended_witness :
    ("1. topic" ≠ "" ∧ summaryContent "1. topic" ≠ "") ∧
    (ghSections "1. topic" = [] ∧ flatListItems "1. topic" = [] ∧
      summaryContent "1. topic" = paraFallback "1. topic") :=
  ⟨⟨by decide, c4_fallback_amended.1 "1. topic" (by decide)⟩,
   ⟨by decide, by decide, c4_fallback_amended.2.2 "1. topic" (by decide) (by decide)⟩⟩

/-! ## Sorting lemmas -/

theorem lexLe_of_not {α : Type _} [LinearOrder α] :
    ∀ xs ys : List α, lexLe xs ys = false → lexLe ys xs = true := by
  intro xs
  induction xs with
  | nil => intro ys h; simp [lexLe] at h
  | cons a as ih =>
    intro ys h
    cases ys with
    | nil => rfl
    | cons b bs =>
      unfold lexLe at h ⊢
      rcases lt_trichotomy a b with hab | hab | hab
      · rw [if_pos hab] at h
        exact absurd h (by simp)
      · subst hab
        rw [if_neg (lt_irrefl a), if_neg (lt_irrefl a)] at h
        rw [if_neg (lt_irrefl a), if_neg (lt_irrefl a)]
        exact ih bs h
      · rw [if_pos hab]

theorem lexLe_trans {α : Type _} [LinearOrder α] :
    ∀ xs ys zs : List α, lexLe xs ys = true → lexLe ys zs = true →
      lexLe xs zs = true := by
  intro xs
  induction xs with
  | nil => intro ys zs _ _; rfl
  | cons a as ih =>
    intro ys zs h1 h2
    cases ys with
    | nil => simp [lexLe] at h1
    | cons b bs =>
      cases zs with
      | nil => simp [lexLe] at h2
      | cons c cs =>
        unfold lexLe at h1 h2 ⊢
        rcases lt_trichotomy a b with hab | hab | hab
        · rcases lt_trichotomy b c with hbc | hbc | hbc
          · rw [if_pos (lt_trans hab hbc)]
          · subst hbc; rw [if_pos hab]
          · rw [if_neg (lt_asymm hbc), if_pos hbc] at h2
            exact absurd h2 (by simp)
        · subst hab
          rcases lt_trichotomy a c with hac | hac | hac
          · rw [if_pos hac]
          · subst hac
            rw [if_neg (lt_irrefl a), if_neg (lt_irrefl a)] at h1 h2 ⊢
            exact ih bs cs h1 h2
          · rw [if_neg (lt_asymm hac), if_pos hac] at h2
            exact absurd h2 (by simp)
        · rw [if_neg (lt_asymm hab), if_pos hab] at h1
          exact absurd h1 (by simp)

theorem mem_insertLe {α : Type _} (le : α → α → Bool) (x : α) :
    ∀ (l : List α) (z : α), z ∈ insertLe le x l ↔ z = x ∨ z ∈ l := by
  intro l
  induction l with
  | nil => intro z; simp [insertLe]
  | cons y ys ih =>
    intro z
    unfold insertLe
    split
    · simp [List.mem_cons]
    · simp only [List.mem_cons, ih z]
      tauto

theorem pairwise_insertLe {α : Type _} (le : α → α → Bool) {R : α → α → Prop}
    (hT : ∀ a b, le a b = true → R a b)
    (hF : ∀ a b, le a b = false → R b a)
    (htrans : ∀ a b c, R a b → R b c → R a c) (x : α) :
    ∀ l : List α, l.Pairwise R → (insertLe le x l).Pairwise R := by
  intro l
  induction l with
  | nil => intro _; simp [insertLe]
  | cons y ys ih =>
    intro h
    rw [List.pairwise_cons] at h
    obtain ⟨hy, hys⟩ := h
    unfold insertLe
    split
    · rename_i hle
      rw [List.pairwise_cons]
      refine ⟨?_, List.pairwise_cons.mpr ⟨hy, hys⟩⟩
      intro z hz
      rcases List.mem_cons.mp hz with rfl | hz'
      · exact hT x z hle
      · exact htrans x y z (hT x y hle) (hy z hz')
    · rename_i hle
      have hle' : le x y = false := by
        cases hxy : le x y
        · rfl
        · exact absurd hxy hle
      rw [List.pairwise_cons]
      refine ⟨?_, ih hys⟩
      intro z hz
      rcases (mem_insertLe le x ys z).mp hz with hzx | hz'
      · rw [hzx]
        exact hF x y hle'
      · exact hy z hz'

theorem pairwise_sortLe {α : Type _} (le : α → α → Bool) {R : α → α → Prop}
    (hT : ∀ a b, le a b = true → R a b)
    (hF : ∀ a b, le a b = false → R b a)
    (htrans : ∀ a b c, R a b → R b c → R a c) :
    ∀ l : List α, (sortLe le l).Pairwise R := by
  intro l
  induction l with
  | nil => simp [sortLe]
  | cons x xs ih => exact pairwise_insertLe le hT hF htrans x (sortLe le xs) ih

theorem strLe_of_not {a b : String} (h : strLe a b = false) : strLe b a = true :=
  lexLe_of_not a.data b.data h

theorem strLe_trans {a b c : String} (h1 : strLe a b = true) (h2 : strLe b c = true) :
    strLe a c = true :=
  lexLe_trans a.data b.data c.data h1 h2

theorem dtLe_of_not {a b : DateTime} (h : dtLe a b = false) : dtLe b a = true :=
  lexLe_of_not a.fields b.fields h

theorem dtLe_trans {a b c : DateTime} (h1 : dtLe a b = true) (h2 : dtLe b c = true) :
    dtLe a c = true :=
  lexLe_trans a.fields b.fields c.fields h1 h2

theorem pairwise_sortedDayKeys (items : List NewsItem) :
    (sortedDayKeys items).Pairwise (fun a b => strLe b a = true) := by
  unfold sortedDayKeys
  exact @pairwise_sortLe String (fun a b => strLe b a) (fun a b => strLe b a = true)
    (fun _ _ h => h)
    (fun _ _ h => strLe_of_not h)
    (fun _ _ _ h1 h2 => strLe_trans h2 h1)
    _

theorem pairwise_sortedSourceKeys (dateItems : List NewsItem) :
    (sortedSourceKeys dateItems).Pairwise (fun a b => strLe a b = true) := by
  unfold sortedSourceKeys
  exact @pairwise_sortLe String strLe (fun a b => strLe a b = true)
    (fun _ _ h => h)
    (fun _ _ h => strLe_of_not h)
    (fun _ _ _ h1 h2 => strLe_trans h1 h2)
    _

theorem pairwise_sortPublishedDesc (l : List NewsItem) :
    (sortPublishedDesc l).Pairwise (fun a b => dtLe b.published a.published = true) := by
  unfold sortPublishedDesc
  exact @pairwise_sortLe NewsItem (fun a b => dtLe b.published a.published)
    (fun a b => dtLe b.published a.published = true)
    (fun _ _ h => h)
    (fun _ _ h => dtLe_of_not h)
    (fun _ _ _ h1 h2 => dtLe_trans h2 h1)
    _

/-- Same-day example articles used by C5 and C10: source `A` at 14:00 and
10:00, source `B` at 12:00. -/
def exA1 : NewsItem := ⟨"a1", "la1", ⟨2024, 3, 10, 14, 0, 0⟩, "", "A"⟩

def exA2 : NewsItem := ⟨"a2", "la2", ⟨2024, 3, 10, 10, 0, 0⟩, "", "A"⟩

def exB1 : NewsItem := ⟨"b1", "lb1", ⟨2024, 3, 10, 12, 0, 0⟩, "", "B"⟩

/-- Example with a 09:00 article, for the C5 time-ordering instance. -/
def exA9 : NewsItem := ⟨"a9", "la9", ⟨2024, 3, 10, 9, 0, 0⟩, "", "A"⟩

/-- C5: the Markdown report's grouped view orders day groups descending by
the `YYYY-MM-DD` key, sources ascending by default string comparison
within a day, and articles by published time descending within a source;
in particular sources `{B, A}` on one day list `A` first, and articles of
one source at 09:00 and 14:00 list the 14:00 one first. -/
theorem c5_markdown_grouping :
    (∀ items : List NewsItem,
      ((markdownGroups items).map (fun g => g.1)).Pairwise
        (fun a b => strLe b a = true) ∧
      (∀ g ∈ markdownGroups items,
        (g.2.map (fun sg => sg.1)).Pairwise (fun a b => strLe a b = true) ∧
        ∀ sg ∈ g.2,
          sg.2.Pairwise (fun a b => dtLe b.published a.published = true))) ∧
    markdownGroups [exB1, exA1] =
      [("2024-03-10", [("A", [exA1]), ("B", [exB1])])] ∧
    markdownGroups [exA9, exA1] =
      [("2024-03-10", [("A", [exA1, exA9])])] := by
  refine ⟨?_, by decide, by decide⟩
  intro items
  constructor
  · have hkeys : (markdownGroups items).map (fun g => g.1) = sortedDayKeys items := by
      unfold markdownGroups
      rw [List.map_map]
      exact List.map_id'' (fun _ => rfl) _
    rw [hkeys]
    exact pairwise_sortedDayKeys items
  · intro g hg
    unfold markdownGroups at hg
    rcases List.mem_map.mp hg with ⟨dk, _, rfl⟩
    constructor
    · have hsrc : (List.map (fun src =>
          (src, sortPublishedDesc ((group_by_date items dk).filter
            (fun it => it.source = src)))) (sortedSourceKeys (group_by_date items dk))).map
            (fun sg => sg.1) = sortedSourceKeys (group_by_date items dk) := by
        rw [List.map_map]
        exact List.map_id'' (fun _ => rfl) _
      rw [hsrc]
      exact pairwise_sortedSourceKeys (group_by_date items dk)
    · intro sg hsg
      rcases List.mem_map.mp hsg with ⟨src, _, rfl⟩
      exact pairwise_sortPublishedDesc _

/-- Closed instance of C5's quantified parts at the concrete example
collection, with the group memberships discharged. -/
theorem c5_markdown_grouping_witness :
    ((("2024-03-10", [("A", [exA1, exA2]), ("B", [exB1])]) :
        String × List (String × List NewsItem)).2.map (fun sg => sg.1)).Pairwise
      (fun a b => strLe a b = true) ∧
    [exA1, exA2].Pairwise (fun a b => dtLe b.published a.published = true) := by
  have h := ((c5_markdown_grouping.1 [exA2, exB1, exA1]).2
    ("2024-03-10", [("A", [exA1, exA2]), ("B", [exB1])]) (by decide))
  exact ⟨h.1, h.2 ("A", [exA1, exA2]) (by decide)⟩

/-- C10: within each day section of the HTML report the cards are ordered
solely by published time descending — no sub-grouping by source — so
sources interleave by time (`A`@14:00, `B`@12:00, `A`@10:00), unlike the
Markdown report's day-then-source two-level partition of the same
articles. -/
theorem c10_html_day_order :
    (∀ (items : List NewsItem) (dk : String),
      (dayItemsSorted items dk).Pairwise
        (fun a b => dtLe b.published a.published = true)) ∧
    dayItemsSorted [exA2, exB1, exA1] "2024-03-10" = [exA1, exB1, exA2] ∧
    markdownGroups [exA2, exB1, exA1] =
      [("2024-03-10", [("A", [exA1, exA2]), ("B", [exB1])])] := by
  refine ⟨?_, by decide, by decide⟩
  intro items dk
  exact pairwise_sortPublishedDesc _

/-! ## C6: archive index -/

theorem archiveEntry_fields {cfn fn : String} {e : String × String × Bool}
    (h : archiveEntry cfn fn = some e) : e.1 = fn ∧ e.2.2 = (fn == cfn) := by
  unfold archiveEntry at h
  split at h
  · rw [← Option.some.inj h]
    exact ⟨rfl, rfl⟩
  · cases h

theorem c6_countP_aux (cfn : String) (e0 : String × String × Bool)
    (h0 : archiveEntry cfn cfn = some e0) :
    ∀ l : List String, l.Nodup → cfn ∈ l →
      (l.filterMap (archiveEntry cfn)).countP (fun a => a.1 == cfn) = 1 := by
  intro l
  induction l with
  | nil => intro _ h; cases h
  | cons x xs ih =>
    intro hnd hmem
    rw [List.nodup_cons] at hnd
    obtain ⟨hx, hnd'⟩ := hnd
    rw [List.filterMap_cons]
    rcases List.mem_cons.mp hmem with rfl | hmem'
    · rw [h0]
      have he01 : e0.1 = cfn := (archiveEntry_fields h0).1
      have hrest : (xs.filterMap (archiveEntry cfn)).countP (fun a => a.1 == cfn) = 0 := by
        rw [List.countP_eq_zero]
        intro a ha
        rcases List.mem_filterMap.mp ha with ⟨fn, hfn, hfne⟩
        have hname := (archiveEntry_fields hfne).1
        intro hbeq
        have hfc : fn = cfn := by simpa [hname] using hbeq
        exact hx (hfc ▸ hfn)
      rw [List.countP_cons, hrest, he01]
      simp
    · have hxc : x ≠ cfn := fun h => hx (h ▸ hmem')
      cases hfx : archiveEntry cfn x with
      | none => exact ih hnd' hmem'
      | some e =>
        rw [List.countP_cons]
        have hname : e.1 = x := (archiveEntry_fields hfx).1
        rw [ih hnd' hmem']
        simp [hname, hxc]

/-- C6: for every scanned file-name list (the newest-first directory scan)
and current period, the archive index contains exactly one entry named
`start_end.html`, exactly the entries with that name are flagged current,
and when no scanned file has that name the current entry is synthesized
and prepended at the front, leaving the scanned entries' order otherwise
unchanged. -/
theorem c6_archive_list (scanned : List String) (cs ce : String)
    (hnd : scanned.Nodup)
    (hdate : pySplitOn "_" (pyReplace (cs ++ "_" ++ ce ++ ".html") ".html" "") = [cs, ce]) :
    ((get_archive_list scanned cs ce).countP
        (fun a => a.1 == cs ++ "_" ++ ce ++ ".html") = 1) ∧
    (∀ a ∈ get_archive_list scanned cs ce,
        a.2.2 = (a.1 == cs ++ "_" ++ ce ++ ".html")) ∧
    ((cs ++ "_" ++ ce ++ ".html") ∉ scanned →
      get_archive_list scanned cs ce =
        (cs ++ "_" ++ ce ++ ".html", cs ++ " 〜 " ++ ce, true) ::
          scanned.filterMap (archiveEntry (cs ++ "_" ++ ce ++ ".html"))) := by
  have hcfn : archiveEntry (cs ++ "_" ++ ce ++ ".html") (cs ++ "_" ++ ce ++ ".html") =
      some (cs ++ "_" ++ ce ++ ".html", cs ++ " 〜 " ++ ce, true) := by
    unfold archiveEntry
    rw [hdate]
    simp
  refine ⟨?_, ?_, ?_⟩
  · by_cases hmem : (cs ++ "_" ++ ce ++ ".html") ∈ scanned
    · have hany : (scanned.filterMap (archiveEntry (cs ++ "_" ++ ce ++ ".html"))).any
          (fun a => a.1 == cs ++ "_" ++ ce ++ ".html") = true := by
        rw [List.any_eq_true]
        exact ⟨_, List.mem_filterMap.mpr ⟨_, hmem, hcfn⟩, by simp⟩
      unfold get_archive_list
      rw [if_pos hany]
      exact c6_countP_aux _ _ hcfn scanned hnd hmem
    · have hall : ∀ a ∈ scanned.filterMap (archiveEntry (cs ++ "_" ++ ce ++ ".html")),
          ¬ (a.1 == cs ++ "_" ++ ce ++ ".html") = true := by
        intro a ha hbeq
        rcases List.mem_filterMap.mp ha with ⟨fn, hfn, hfne⟩
        have hname := (archiveEntry_fields hfne).1
        have : fn = cs ++ "_" ++ ce ++ ".html" := by simpa [hname] using hbeq
        exact hmem (this ▸ hfn)
      have hany : (scanned.filterMap (archiveEntry (cs ++ "_" ++ ce ++ ".html"))).any
          (fun a => a.1 == cs ++ "_" ++ ce ++ ".html") = false := by
        rw [List.any_eq_false]
        exact hall
      unfold get_archive_list
      rw [if_neg (by rw [hany]; exact Bool.false_ne_true)]
      rw [List.countP_cons, List.countP_eq_zero.mpr hall]
      simp
  · intro a ha
    unfold get_archive_list at ha
    split_ifs at ha
    · rcases List.mem_filterMap.mp ha with ⟨fn, _, hfne⟩
      obtain ⟨h1, h2⟩ := archiveEntry_fields hfne
      rw [h2, h1]
    · rcases List.mem_cons.mp ha with rfl | ha'
      · simp
      · rcases List.mem_filterMap.mp ha' with ⟨fn, _, hfne⟩
        obtain ⟨h1, h2⟩ := archiveEntry_fields hfne
        rw [h2, h1]
  · intro hmem
    have hall : ∀ a ∈ scanned.filterMap (archiveEntry (cs ++ "_" ++ ce ++ ".html")),
        ¬ (a.1 == cs ++ "_" ++ ce ++ ".html") = true := by
      intro a ha hbeq
      rcases List.mem_filterMap.mp ha with ⟨fn, hfn, hfne⟩
      have hname := (archiveEntry_fields hfne).1
      have : fn = cs ++ "_" ++ ce ++ ".html" := by simpa [hname] using hbeq
      exact hmem (this ▸ hfn)
    have hany : (scanned.filterMap (archiveEntry (cs ++ "_" ++ ce ++ ".html"))).any
        (fun a => a.1 == cs ++ "_" ++ ce ++ ".html") = false := by
      rw [List.any_eq_false]
      exact hall
    unfold get_archive_list
    rw [if_neg (by rw [hany]; exact Bool.false_ne_true)]

/-- Closed instance of C6 at a concrete scan of two archived periods and a
not-yet-persisted current period. -/
theorem c6_archive_list_witness :
    ((get_archive_list ["2024-01-01_2024-01-07.html", "2023-12-25_2023-12-31.html"]
        "2024-02-01" "2024-02-07").countP
      (fun a => a.1 == "2024-02-01" ++ "_" ++ "2024-02-07" ++ ".html") = 1) ∧
    get_archive_list ["2024-01-01_2024-01-07.html", "2023-12-25_2023-12-31.html"]
        "2024-02-01" "2024-02-07" =
      ("2024-02-01" ++ "_" ++ "2024-02-07" ++ ".html", "2024-02-01" ++ " 〜 " ++ "2024-02-07",
        true) ::
        ["2024-01-01_2024-01-07.html", "2023-12-25_2023-12-31.html"].filterMap
          (archiveEntry ("2024-02-01" ++ "_" ++ "2024-02-07" ++ ".html")) :=
  ⟨(c6_archive_list _ "2024-02-01" "2024-02-07" (by decide) (by decide)).1,
   (c6_archive_list _ "2024-02-01" "2024-02-07" (by decide) (by decide)).2.2 (by decide)⟩

/-! ## C7: keyword filter -/

theorem listInfixTest_iff (n : List Char) :
    ∀ h : List Char, listInfixTest n h = true ↔ n <:+: h := by
  intro h
  induction h with
  | nil =>
    simp only [listInfixTest, List.isEmpty_iff]
    constructor
    · intro hn; rw [hn]
    · intro hn
      have := List.eq_nil_of_infix_nil hn
      exact this
  | cons c t ih =>
    simp only [listInfixTest, Bool.or_eq_true, ih, List.isPrefixOf_iff_prefix]
    constructor
    · rintro (hp | hi)
      · exact hp.isInfix
      · exact hi.trans ⟨[c], [], by simp⟩
    · intro hin
      rcases List.infix_cons_iff.mp hin with hp | hi
      · exact Or.inl hp
      · exact Or.inr hi

/-- C7: an article passes `fetch_feed`'s retention test iff at least one
fixed keyword occurs as a plain substring of the lower-cased concatenation
of title and summary; `テレワーク導入について` is retained, while
`今日の天気は晴れです` is dropped (no always-include override exists: the
keyword test is applied uniformly). -/
theorem c7_keyword_filter :
    (∀ title summary : String, fetch_keeps title summary = true ↔
      ∃ k ∈ LABOR_KEYWORDS, k.data <:+: (pyLower (title ++ summary)).data) ∧
    is_labor_related "テレワーク導入について" = true ∧
    is_labor_related "今日の天気は晴れです" = false := by
  refine ⟨?_, by decide, by decide⟩
  intro title summary
  unfold fetch_keeps is_labor_related pyIn
  rw [List.any_eq_true]
  constructor
  · rintro ⟨k, hk, hin⟩
    exact ⟨k, hk, (listInfixTest_iff _ _).mp hin⟩
  · rintro ⟨k, hk, hin⟩
    exact ⟨k, hk, (listInfixTest_iff _ _).mpr hin⟩

/-! ## C8: empty-window short-circuit -/

/-- C8: when zero articles survive window selection the run reports zero
results and writes no file at all — no Markdown, no HTML (index, archive
copy or summary-history page), no summary JSON. -/
theorem c8_empty_run (days : Nat) (now : DateTime) (allItems : List NewsItem)
    (summarizerResult : Option String) (scanned : List String)
    (noSummary noMarkdown noHtml : Bool)
    (hempty : filter_by_date_range allItems
      (subDays (truncateDay now) (days - 1)) (truncateDay now) = []) :
    mainRun days now allItems summarizerResult scanned noSummary noMarkdown noHtml =
      { reportedCount := 0, writes := [] } := by
  simp [mainRun, hempty]

/-- Closed instance of C8: a single article published well before the
window produces an empty, write-free run. -/
theorem c8_empty_run_witness :
    mainRun 7 ⟨2024, 3, 10, 12, 0, 0⟩ [⟨"t", "l", ⟨2024, 2, 1, 8, 0, 0⟩, "", "S"⟩]
      (some "s") [] false false false = { reportedCount := 0, writes := [] } :=
  c8_empty_run 7 ⟨2024, 3, 10, 12, 0, 0⟩ [⟨"t", "l", ⟨2024, 2, 1, 8, 0, 0⟩, "", "S"⟩]
    (some "s") [] false false false (by decide)

/-! ## C9: deterministic rendering modulo the generated-at stamp -/

/-- C9: both renderers are pure functions of their inputs (so re-rendering
a fixed input is byte-identical), and for a fixed article list, summary,
and archive list the wall-clock time enters each document exactly once:
the output factors as `prefix ++ timestamp ++ suffix` with `prefix` and
`suffix` independent of `now`. -/
theorem c9_determinism (items : List NewsItem) (s e : DateTime)
    (summary : Option String) (archives : List (String × String × Bool)) :
    (∃ mpre mpost : String, ∀ now : DateTime,
      generate_markdown items s e now = mpre ++ (fmtMin now ++ mpost)) ∧
    (∃ hpre hpost : String, ∀ now : DateTime,
      generate_html items s e summary archives now = hpre ++ (fmtMin now ++ hpost)) := by
  constructor
  · refine ⟨"# 労務関連ニュース" ++ "\n" ++ ("## 期間: " ++ fmtDate s ++ " 〜 " ++ fmtDate e) ++
      "\n" ++ "" ++ "\n" ++ "*収集日時: ",
      "*" ++ "\n" ++ joinLines ("" :: ("ニュース件数: **" ++ natRepr items.length ++ "件**") ::
        "" :: "---" :: "" :: (markdownGroups items).flatMap
          (fun g => mdDayLines g.1 g.2 (group_by_date items g.1).length)),
      fun now => ?_⟩
    unfold generate_markdown mdLines
    simp only [List.cons_append, List.nil_append]
    rw [joinLines_cons _ _ (by simp), joinLines_cons _ _ (by simp),
      joinLines_cons _ _ (by simp), joinLines_cons _ _ (by simp)]
    simp only [String.append_assoc]
  · refine ⟨htmlT0 ++ (fmtDate s ++ " 〜 " ++ fmtDate e) ++ htmlT1 ++ natRepr items.length ++
      htmlT2 ++ natRepr (firstOcc (items.map (fun it => it.source))).length ++
      htmlT3 ++ natRepr (firstOcc (items.map dateKey)).length ++
      htmlT4 ++ (fmtDate s ++ " 〜 " ++ fmtDate e) ++ htmlT5,
      htmlT6 ++ natRepr items.length ++ htmlT7 ++ sourceFiltersHtml items ++
      htmlT8 ++ dateNavHtml items ++ htmlT9 ++
      (match summary with | some t => summarySection t | none => "") ++
      htmlT10 ++ htmlContent items ++ htmlT11 ++ archiveSection archives ++ htmlT12,
      fun now => ?_⟩
    unfold generate_html
    simp only [String.append_assoc]

end CollectNews
